import Mathlib

/-
Verification of the ride-dispatch core of the aye-auto server.

The model below is a shallow embedding of the socket.io server (the current
variant of the server file: startup cleanup, driver_location, request_ride,
accept_ride, cancel_ride, complete_ride, driver_arrived handlers and the
request timeout callback).  Database tables are lists of records, each SQL
statement becomes a pure function on those lists, and every handler is one
atomic state transition returning the new state together with the events it
emits.  The runtime timer queue created by setTimeout is modelled explicitly
as part of the engine state; the server never stores a timer handle, so no
handler removes an entry from that queue before it fires.  External
collaborators (the routing API and the push transport) are outside the model;
events carry the identifiers the server sends.
-/

namespace AyeAuto

/-- Ride lifecycle status values stored in the rides table. -/
inductive RideStatus
  | REQUESTED
  | ACCEPTED
  | ARRIVED
  | ON_TRIP
  | COMPLETED
  | CANCELLED
  | TIMEOUT
  deriving DecidableEq, Repr

/-- Status values the server treats as busy, the set used in the
NOT IN subquery of request_ride, in the driver_location auto-fix and in the
startup cleanup: ACCEPTED, ARRIVED, ON_TRIP. -/
def RideStatus.isBusy : RideStatus → Bool
  | .ACCEPTED => true
  | .ARRIVED => true
  | .ON_TRIP => true
  | _ => false

/-- Status values in which the spec expects the assigned driver reference to
be non-null: ACCEPTED, ARRIVED, ON_TRIP, COMPLETED. -/
def RideStatus.activeAssigned : RideStatus → Bool
  | .ACCEPTED => true
  | .ARRIVED => true
  | .ON_TRIP => true
  | .COMPLETED => true
  | _ => false

/-- Row of the rides table.  Text columns (destination) are opaque tokens. -/
structure Ride where
  id : Nat
  rider_id : Nat
  rider_socket_id : Nat
  pickup_lng : Int
  pickup_lat : Int
  drop_lng : Int
  drop_lat : Int
  fare : Nat
  destination : Nat
  status : RideStatus
  driver_id : Option Nat
  payment_method : Option Nat
  deriving DecidableEq, Repr

/-- Row of the drivers table.  The location point is stored as the pair of
coordinates passed to ST_MakePoint, so in (lng, lat) order. -/
structure Driver where
  id : Nat
  lng : Int
  lat : Int
  heading : Int
  socket_id : Option Nat
  is_online : Bool
  fcm_token : Option Nat
  deriving DecidableEq, Repr

/-- Events the server emits over the socket or the push transport. -/
inductive Event
  | driver_request (driverSocket rideId : Nat)
  | push_notification (fcmToken rideId : Nat)
  | ride_booking_failed (driverId : Nat)
  | ride_booking_success (driverId rideId : Nat)
  | ride_accepted (riderSocket rideId driverId : Nat)
  | ride_timeout (riderSocket : Nat)
  | ride_cancelled_by_user (driverSocket : Option Nat)
  | ride_saved_success
  | ride_completed (riderSocket rideId : Nat)
  | driver_arrived_notice (targetSocket : Nat)
  deriving DecidableEq, Repr

/-- Predicate selecting driver_request events (fan-out to candidate drivers). -/
def Event.isDriverRequest : Event → Bool
  | .driver_request _ _ => true
  | _ => false

/-- Engine state: the two persisted tables plus the runtime timer queue.
Each pending timer is a pair of the ride id captured by the setTimeout
closure and the scheduled delay in milliseconds. -/
structure EngineState where
  drivers : List Driver
  rides : List Ride
  pendingTimers : List (Nat × Nat)
  deriving DecidableEq, Repr

/-- Generic SQL UPDATE ... WHERE: apply g to every row satisfying p. -/
def updateWhere {α : Type} (p : α → Bool) (g : α → α) (l : List α) : List α :=
  l.map fun a => if p a then g a else a

/-- SELECT * FROM rides WHERE id = rideId, first row. -/
def getRide (rides : List Ride) (rideId : Nat) : Option Ride :=
  rides.find? fun r => r.id == rideId

/-- SELECT * FROM drivers WHERE id = driverId, first row. -/
def getDriver (drivers : List Driver) (driverId : Nat) : Option Driver :=
  drivers.find? fun d => d.id == driverId

/-- SQL COALESCE of two nullable values. -/
def coalesce (x y : Option Nat) : Option Nat :=
  match x with
  | some t => some t
  | none => y

/-- Subquery of request_ride: the driver has a ride row whose status is in
(ACCEPTED, ARRIVED, ON_TRIP) with driver_id not null. -/
def driverBusy (rides : List Ride) (driverId : Nat) : Bool :=
  rides.any fun r => r.driver_id == some driverId && r.status.isBusy

/-- Abstract geodesic distance computed by the geospatial store for
ST_DWithin; the store is external, so the metric is a parameter. -/
def GeoDist : Type := Int × Int → Int × Int → Nat

/-- Candidate query of request_ride: online drivers, not busy, within the
radius of the pickup point.  The SQL has no ORDER BY and no LIMIT, so the
result keeps table order and is uncapped. -/
def nearbyDriversQuery (gd : GeoDist) (pickup : Int × Int) (radius : Nat)
    (drivers : List Driver) (rides : List Ride) : List Driver :=
  drivers.filter fun d =>
    d.is_online && !driverBusy rides d.id &&
      decide (gd (d.lng, d.lat) pickup ≤ radius)

/-- Fresh serial id for an inserted ride row. -/
def nextRideId (rides : List Ride) : Nat :=
  rides.foldr (fun r m => max r.id m) 0 + 1

/-- Payload of the request_ride event. -/
structure RequestData where
  riderId : Nat
  pickupLat : Int
  pickupLng : Int
  dropLat : Int
  dropLng : Int
  fare : Nat
  destination : Nat
  deriving DecidableEq, Repr

/-- Payload of the driver_location event. -/
structure LocationData where
  driverId : Nat
  lat : Int
  lng : Int
  heading : Int
  fcmToken : Option Nat
  deriving DecidableEq, Repr

/-- Fixed search radius of the candidate query in request_ride (metres). -/
def DISPATCH_RADIUS : Nat := 5000

/-- Delay of the single setTimeout scheduled by request_ride (milliseconds). -/
def TIMEOUT_MS : Nat := 120000

/-- Row inserted by request_ride: status REQUESTED, no driver. -/
def newRideOf (socketId : Nat) (data : RequestData) (st : EngineState) : Ride :=
  { id := nextRideId st.rides
    rider_id := data.riderId
    rider_socket_id := socketId
    pickup_lng := data.pickupLng
    pickup_lat := data.pickupLat
    drop_lng := data.dropLng
    drop_lat := data.dropLat
    fare := data.fare
    destination := data.destination
    status := RideStatus.REQUESTED
    driver_id := none
    payment_method := none }

/-- Notifications request_ride sends to one candidate driver: a socket emit
when the driver has a socket, a push message when it has a token. -/
def notifyEvents (d : Driver) (rid : Nat) : List Event :=
  (match d.socket_id with
   | some s => [Event.driver_request s rid]
   | none => []) ++
  (match d.fcm_token with
   | some t => [Event.push_notification t rid]
   | none => [])

/-- Result of the request_ride handler: the new state, the notifications
sent, the radii of the candidate queries it performed, and the new ride id. -/
structure RequestOutcome where
  state : EngineState
  events : List Event
  queryRadii : List Nat
  rideId : Nat
  deriving DecidableEq, Repr

/-- Handler request_ride: insert a REQUESTED ride, run one candidate query at
the fixed radius, notify each candidate, and schedule one timeout timer.
No further phase is scheduled and the timer handle is not stored. -/
def requestRide (gd : GeoDist) (socketId : Nat) (data : RequestData)
    (st : EngineState) : RequestOutcome :=
  let rid := nextRideId st.rides
  let rides1 := st.rides ++ [newRideOf socketId data st]
  let cands := nearbyDriversQuery gd (data.pickupLng, data.pickupLat)
    DISPATCH_RADIUS st.drivers rides1
  { state := { st with
      rides := rides1
      pendingTimers := st.pendingTimers ++ [(rid, TIMEOUT_MS)] }
    events := cands.foldr (fun d acc => notifyEvents d rid ++ acc) []
    queryRadii := [DISPATCH_RADIUS]
    rideId := rid }

/-- Timeout callback scheduled by request_ride, run when the timer fires:
re-read the status; only when it is still REQUESTED set it to TIMEOUT and
notify the rider.  Firing consumes the queue entry. -/
def fireTimeout (socketId rideId : Nat) (st : EngineState) :
    EngineState × List Event :=
  let st' := { st with
    pendingTimers := st.pendingTimers.eraseP fun t => t.1 == rideId }
  let ridesTo := updateWhere (fun q => q.id == rideId)
    (fun q => { q with status := RideStatus.TIMEOUT }) st.rides
  match getRide st.rides rideId with
  | some r =>
    if r.status = RideStatus.REQUESTED then
      ({ st' with rides := ridesTo }, [Event.ride_timeout socketId])
    else (st', [])
  | none => (st', [])

/-- WHERE clause of the conditional accept UPDATE: matching id and status
still REQUESTED. -/
def acceptPred (rideId : Nat) (r : Ride) : Bool :=
  r.id == rideId && r.status == RideStatus.REQUESTED

/-- SET clause of the accept UPDATE: assign the driver and mark ACCEPTED. -/
def acceptSet (driverId : Nat) (r : Ride) : Ride :=
  { r with driver_id := some driverId, status := RideStatus.ACCEPTED }

/-- Single conditional UPDATE of accept_ride. -/
def acceptUpdate (driverId rideId : Nat) (rides : List Ride) : List Ride :=
  updateWhere (acceptPred rideId) (acceptSet driverId) rides

/-- Affected-row count of the accept UPDATE (result.rowCount). -/
def acceptRowCount (rideId : Nat) (rides : List Ride) : Nat :=
  (rides.filter (acceptPred rideId)).length

/-- Handler accept_ride: one conditional UPDATE; zero affected rows means the
ride was already taken and the caller gets ride_booking_failed with no
mutation; otherwise the rider gets ride_accepted and the caller
ride_booking_success.  The timer queue is untouched. -/
def acceptRide (driverId rideId riderSocket : Nat) (st : EngineState) :
    EngineState × List Event :=
  if acceptRowCount rideId st.rides = 0 then
    (st, [Event.ride_booking_failed driverId])
  else
    ({ st with rides := acceptUpdate driverId rideId st.rides },
     [Event.ride_accepted riderSocket rideId driverId,
      Event.ride_booking_success driverId rideId])

/-- Sequentialised accept race: several drivers call accept_ride on the same
ride one after the other (the store serialises the conditional updates);
returns the final state and each caller's emitted events. -/
def runAccepts (rideId riderSocket : Nat) :
    EngineState → List Nat → EngineState × List (List Event)
  | st, [] => (st, [])
  | st, d :: ds =>
    let res := acceptRide d rideId riderSocket st
    let rest := runAccepts rideId riderSocket res.1 ds
    (rest.1, res.2 :: rest.2)

/-- Unconditional UPDATE of cancel_ride (driver_id is left in place). -/
def cancelUpdate (rideId : Nat) (rides : List Ride) : List Ride :=
  updateWhere (fun r => r.id == rideId)
    (fun r => { r with status := RideStatus.CANCELLED }) rides

/-- Handler cancel_ride: guard against a falsy ride id, set CANCELLED
unconditionally, then notify the assigned driver when there is one. -/
def cancelRide (rideId : Nat) (st : EngineState) : EngineState × List Event :=
  if rideId = 0 then (st, [])
  else
    let rides' := cancelUpdate rideId st.rides
    let evs :=
      match getRide rides' rideId with
      | some r =>
        match r.driver_id with
        | some did =>
          match getDriver st.drivers did with
          | some d => [Event.ride_cancelled_by_user d.socket_id]
          | none => []
        | none => []
      | none => []
    ({ st with rides := rides' }, evs)

/-- SET clause of complete_ride: status COMPLETED plus the payment method. -/
def completeSet (pm : Nat) (r : Ride) : Ride :=
  { r with status := RideStatus.COMPLETED, payment_method := some pm }

/-- Unconditional UPDATE of complete_ride. -/
def completeUpdate (rideId pm : Nat) (rides : List Ride) : List Ride :=
  updateWhere (fun r => r.id == rideId) (completeSet pm) rides

/-- Handler complete_ride: set COMPLETED and the payment method, confirm to
the caller, then notify the rider socket stored on the ride row. -/
def completeRide (rideId pm : Nat) (st : EngineState) :
    EngineState × List Event :=
  let rides' := completeUpdate rideId pm st.rides
  let evs := [Event.ride_saved_success] ++
    (match getRide rides' rideId with
     | some r => [Event.ride_completed r.rider_socket_id rideId]
     | none => [])
  ({ st with rides := rides' }, evs)

/-- Handler driver_arrived: unconditional UPDATE to ARRIVED plus a
notification to the target socket taken from the payload. -/
def driverArrived (rideId targetSocket : Nat) (st : EngineState) :
    EngineState × List Event :=
  let rides' := updateWhere (fun r => r.id == rideId)
    (fun r => { r with status := RideStatus.ARRIVED }) st.rides
  ({ st with rides := rides' }, [Event.driver_arrived_notice targetSocket])

/-- SET clause of the driver_location UPDATE on the drivers table: location,
heading, socket, online flag, and COALESCE($5, fcm_token) for the token. -/
def driverSet (socketId : Nat) (data : LocationData) (d : Driver) : Driver :=
  { d with
    lng := data.lng
    lat := data.lat
    heading := data.heading
    socket_id := some socketId
    is_online := true
    fcm_token := coalesce data.fcmToken d.fcm_token }

/-- WHERE clause of the driver_location auto-fix UPDATE on rides: assigned
to this driver and in a busy status. -/
def healPred (did : Nat) (r : Ride) : Bool :=
  r.driver_id == some did && r.status.isBusy

/-- Handler driver_location: persist the location, heading, socket and
online flag, keep the stored push token when none is sent (COALESCE), then
auto-cancel every busy ride assigned to this driver. -/
def driverLocation (socketId : Nat) (data : LocationData)
    (st : EngineState) : EngineState :=
  { st with
    drivers := updateWhere (fun d => d.id == data.driverId)
      (driverSet socketId data) st.drivers
    rides := updateWhere (healPred data.driverId)
      (fun r => { r with status := RideStatus.CANCELLED }) st.rides }

/-- Startup cleanup query: force every busy ride to CANCELLED. -/
def clearStuckRides (rides : List Ride) : List Ride :=
  updateWhere (fun r => r.status.isBusy)
    (fun r => { r with status := RideStatus.CANCELLED }) rides

/-- Run of one ride request followed by its timer firing with nothing in
between, recording the notifications, the candidate-query radii and the
delays of the timers the request scheduled. -/
structure DispatchTrace where
  finalState : EngineState
  driverNotices : List Event
  riderNotices : List Event
  queryRadii : List Nat
  timerDelays : List Nat
  deriving DecidableEq, Repr

/-- Dispatch run: request_ride, then the scheduled timeout fires. -/
def dispatchRun (gd : GeoDist) (socketId : Nat) (data : RequestData)
    (st : EngineState) : DispatchTrace :=
  let o := requestRide gd socketId data st
  let f := fireTimeout socketId o.rideId o.state
  { finalState := f.1
    driverNotices := o.events
    riderNotices := f.2
    queryRadii := o.queryRadii
    timerDelays :=
      (o.state.pendingTimers.drop st.pendingTimers.length).map Prod.snd }

/-- Observable steps around process start: completion of the un-awaited
startup cleanup, and the serving of an incoming ride request. -/
inductive StartAction
  | cleanupDone : StartAction
  | serveRequest (socketId : Nat) (data : RequestData) : StartAction
  deriving DecidableEq, Repr

/-- Selector for the cleanup completion step. -/
def StartAction.isCleanup : StartAction → Bool
  | .cleanupDone => true
  | _ => false

/-- Selector for a served request step. -/
def StartAction.isRequest : StartAction → Bool
  | .serveRequest _ _ => true
  | _ => false

/-- Execution of a sequence of start-time steps. -/
def execStart (gd : GeoDist) : List StartAction → EngineState →
    EngineState × List Event
  | [], st => (st, [])
  | StartAction.cleanupDone :: rest, st =>
    execStart gd rest { st with rides := clearStuckRides st.rides }
  | StartAction.serveRequest sock data :: rest, st =>
    let o := requestRide gd sock data st
    let res := execStart gd rest o.state
    (res.1, o.events ++ res.2)

/-- Orders the server admits at process start: clearStuckRides is invoked
without await before the listener starts, so its completion appears exactly
once but at an arbitrary position relative to incoming requests. -/
def validStartExec (l : List StartAction) : Bool :=
  l.countP StartAction.isCleanup == 1

/-- Whether the cleanup completion precedes every served request. -/
def reconciledBeforeRequests (l : List StartAction) : Bool :=
  (l.takeWhile fun a => !a.isCleanup).all fun a => !a.isRequest

/-- Modelled from the spec: the Startup Reconciler runs synchronously before
the engine accepts any new requests, so in every admissible start order the
cleanup completes before any request is served. -/
def StartupReconcilerSynchronous : Prop :=
  ∀ l : List StartAction, validStartExec l = true →
    reconciledBeforeRequests l = true

/-- Modelled from the spec: every successful accept removes and cancels the
ride's pending dispatch timer, so no timer for that ride remains queued. -/
def AcceptCancelsPendingTimer : Prop :=
  ∀ (st : EngineState) (d rid rsock : Nat),
    Event.ride_booking_success d rid ∈ (acceptRide d rid rsock st).2 →
    ∀ w : Nat, (rid, w) ∉ (acceptRide d rid rsock st).1.pendingTimers

/-- Check that a list of drivers is in ascending order of a measure. -/
def ascendingBy (f : Driver → Nat) : List Driver → Bool
  | [] => true
  | [_] => true
  | a :: b :: t => decide (f a ≤ f b) && ascendingBy f (b :: t)

/-- Modelled from the spec: find_candidates returns its result ascending by
geodesic distance and capped at limit 10. -/
def findCandidatesSpecCompliant (gd : GeoDist) (pickup : Int × Int)
    (out : List Driver) : Bool :=
  decide (out.length ≤ 10) &&
    ascendingBy (fun d => gd (d.lng, d.lat) pickup) out

/-- Check that a list of radii is strictly increasing. -/
def strictlyAscending : List Nat → Bool
  | [] => true
  | [_] => true
  | a :: b :: t => decide (a < b) && strictlyAscending (b :: t)

/-- Modelled from the spec: the dispatch of one request performs a cascading
radius search, at least two candidate-query phases at strictly expanding
radii (the spec names the 5000 m and the 5000 to 10000 m tiers). -/
def cascadingDispatch (t : DispatchTrace) : Bool :=
  decide (2 ≤ t.queryRadii.length) && strictlyAscending t.queryRadii

/-- Spec invariant on one ride row: the assigned driver reference is
non-null exactly when the status is ACCEPTED, ARRIVED, ON_TRIP or
COMPLETED. -/
def assignedIffActive (r : Ride) : Bool :=
  r.driver_id.isSome == r.status.activeAssigned

/-- Concrete taxicab metric used as the store metric in concrete runs. -/
def gd0 : GeoDist := fun p q => (p.1 - q.1).natAbs + (p.2 - q.2).natAbs

/-- Concrete REQUESTED ride with id 1 and rider socket 5. -/
def rideReq : Ride :=
  { id := 1, rider_id := 3, rider_socket_id := 5, pickup_lng := 0,
    pickup_lat := 0, drop_lng := 1, drop_lat := 1, fare := 100,
    destination := 42, status := RideStatus.REQUESTED, driver_id := none,
    payment_method := none }

/-- Concrete busy ride: rideReq already accepted by driver 7. -/
def rideBusy : Ride :=
  { rideReq with status := RideStatus.ACCEPTED, driver_id := some 7 }

/-- Concrete online driver 7 at the pickup point with socket 70. -/
def driver7 : Driver :=
  { id := 7, lng := 0, lat := 0, heading := 0, socket_id := some 70,
    is_online := true, fcm_token := none }

/-- Concrete online driver far outside the search radius. -/
def driverFar : Driver :=
  { id := 8, lng := 999999, lat := 0, heading := 0, socket_id := some 80,
    is_online := true, fcm_token := some 88 }

/-- State holding only the REQUESTED ride. -/
def stOne : EngineState :=
  { drivers := [], rides := [rideReq], pendingTimers := [] }

/-- State holding the REQUESTED ride with its dispatch timer pending. -/
def stPend : EngineState :=
  { drivers := [], rides := [rideReq], pendingTimers := [(1, TIMEOUT_MS)] }

/-- State holding an already accepted ride with its timer still pending. -/
def stAcc : EngineState :=
  { drivers := [], rides := [rideBusy], pendingTimers := [(1, TIMEOUT_MS)] }

/-- State with one busy ride and its driver online at the pickup point. -/
def stStuck : EngineState :=
  { drivers := [driver7], rides := [rideBusy], pendingTimers := [] }

/-- State with one online driver far outside the dispatch radius. -/
def stFar : EngineState :=
  { drivers := [driverFar], rides := [], pendingTimers := [] }

/-- Concrete request payload with pickup at the point (0, 0). -/
def dataReq : RequestData :=
  { riderId := 3, pickupLat := 0, pickupLng := 0, dropLat := 1,
    dropLng := 1, fare := 100, destination := 42 }

/-- Start order in which a request is served before the cleanup completes. -/
def execLate : List StartAction :=
  [StartAction.serveRequest 5 dataReq, StartAction.cleanupDone]

/-- Start order in which the cleanup completes before the request. -/
def execEarly : List StartAction :=
  [StartAction.cleanupDone, StartAction.serveRequest 5 dataReq]

/-- Eleven online free drivers at descending distances from the origin. -/
def drivers11 : List Driver :=
  (List.range 11).map fun i =>
    { id := i + 1, lng := 11 - (i : Int), lat := 0, heading := 0,
      socket_id := some (100 + i), is_online := true, fcm_token := none }

/-- Concrete heartbeat payload carrying a fresh push token. -/
def dataTok : LocationData :=
  { driverId := 7, lat := 2, lng := 3, heading := 4, fcmToken := some 99 }

/-- Concrete heartbeat payload carrying no push token. -/
def dataNoTok : LocationData :=
  { driverId := 7, lat := 2, lng := 3, heading := 4, fcmToken := none }

/-- Driver 7 with a previously stored push token. -/
def driverTok : Driver := { driver7 with fcm_token := some 55 }

/-- State holding only the driver with a stored push token. -/
def stTok : EngineState :=
  { drivers := [driverTok], rides := [], pendingTimers := [] }

theorem filter_nil_of_none {α : Type} (p : α → Bool) :
    ∀ l : List α, (∀ a ∈ l, p a = false) → l.filter p = []
  | [], _ => rfl
  | a :: t, h => by
    have ha := h a (List.mem_cons_self a t)
    have ht := filter_nil_of_none p t fun b hb => h b (List.mem_cons_of_mem a hb)
    simp [List.filter_cons, ha, ht]

theorem map_idem {α : Type} (f : α → α) (hf : ∀ a, f (f a) = f a) :
    ∀ l : List α, (l.map f).map f = l.map f
  | [] => rfl
  | a :: t => by simp [hf a, map_idem f hf t]

theorem find?_append_singleton {α : Type} (q : α → Bool) (x : α) :
    ∀ l : List α, (∀ a ∈ l, q a = false) → q x = true →
      (l ++ [x]).find? q = some x
  | [], _, hx => by simp [List.find?, hx]
  | a :: t, h, hx => by
    have ha := h a (List.mem_cons_self a t)
    have ht := find?_append_singleton q x t
      (fun b hb => h b (List.mem_cons_of_mem a hb)) hx
    simp [List.find?_cons, ha, ht]

theorem drop_length_append {α : Type} : ∀ (l1 l2 : List α),
    (l1 ++ l2).drop l1.length = l2
  | [], _ => rfl
  | a :: t, l2 => by simp [drop_length_append t l2]

theorem find?_updateWhere {α : Type} (key : α → Nat) (k : Nat)
    (p : α → Bool) (g : α → α) (hg : ∀ a, key (g a) = key a) :
    ∀ (l : List α) (x : α), l.find? (fun a => key a == k) = some x →
      (updateWhere p g l).find? (fun a => key a == k) =
        some (if p x then g x else x)
  | [], x, h => by simp [List.find?] at h
  | a :: t, x, h => by
    have hkey : key (if p a then g a else a) = key a := by
      by_cases hp : p a = true
      · simp [hp, hg]
      · simp [hp]
    cases hk : (key a == k) with
    | true =>
      have hx : a = x := by
        simp [List.find?, hk] at h
        exact h
      subst hx
      simp [updateWhere, List.find?, hkey, hk]
    | false =>
      have h' : t.find? (fun b => key b == k) = some x := by
        simpa [List.find?, hk] using h
      have ih := find?_updateWhere key k p g hg t x h'
      simp only [updateWhere, List.map_cons, List.find?, hkey, hk]
      simpa [updateWhere] using ih

theorem getRide_updateWhere (rid : Nat) (p : Ride → Bool) (g : Ride → Ride)
    (hg : ∀ q, (g q).id = q.id) (l : List Ride) (r : Ride)
    (hfind : getRide l rid = some r) :
    getRide (updateWhere p g l) rid = some (if p r then g r else r) :=
  find?_updateWhere Ride.id rid p g hg l r hfind

theorem getDriver_updateWhere (did : Nat) (p : Driver → Bool)
    (g : Driver → Driver) (hg : ∀ q, (g q).id = q.id) (l : List Driver)
    (d : Driver) (hfind : getDriver l did = some d) :
    getDriver (updateWhere p g l) did = some (if p d then g d else d) :=
  find?_updateWhere Driver.id did p g hg l d hfind

theorem mem_updateWhere_of_mem {α : Type} (p : α → Bool) (g : α → α)
    {l : List α} {a : α} (h : a ∈ l) :
    (if p a then g a else a) ∈ updateWhere p g l :=
  List.mem_map_of_mem _ h

theorem acceptPred_after_update (d rid : Nat) (l : List Ride) :
    ∀ x ∈ acceptUpdate d rid l, acceptPred rid x = false := by
  intro x hx
  simp only [acceptUpdate, updateWhere, List.mem_map] at hx
  rcases hx with ⟨r, _, rfl⟩
  by_cases hp : acceptPred rid r = true
  · rw [if_pos hp]
    have hb : (RideStatus.ACCEPTED == RideStatus.REQUESTED) = false := by decide
    simp [acceptPred, acceptSet, hb]
  · rw [if_neg hp]
    simpa using hp

theorem acceptRowCount_after_update (d rid : Nat) (l : List Ride) :
    acceptRowCount rid (acceptUpdate d rid l) = 0 := by
  unfold acceptRowCount
  rw [filter_nil_of_none _ _ (acceptPred_after_update d rid l)]
  rfl

theorem acceptUpdate_not_requested (d rid : Nat) (l : List Ride) :
    ∀ x ∈ acceptUpdate d rid l, (x.id == rid) = true →
      x.status ≠ RideStatus.REQUESTED := by
  intro x hx hid hcon
  have hpred := acceptPred_after_update d rid l x hx
  simp [acceptPred, hid, hcon] at hpred

theorem cancelUpdate_cancelled (rid : Nat) (l : List Ride) :
    ∀ x ∈ cancelUpdate rid l, (x.id == rid) = true →
      x.status = RideStatus.CANCELLED := by
  intro x hx hid
  simp only [cancelUpdate, updateWhere, List.mem_map] at hx
  rcases hx with ⟨r, _, rfl⟩
  by_cases hp : (r.id == rid) = true
  · simp [hp]
  · simp only [if_neg hp] at hid ⊢
    exact absurd hid hp

theorem maxId_le_foldr : ∀ (rides : List Ride), ∀ r ∈ rides,
    r.id ≤ rides.foldr (fun q m => max q.id m) 0
  | [], r, hr => absurd hr (List.not_mem_nil r)
  | a :: t, r, hr => by
    rcases List.mem_cons.1 hr with h | h
    · rw [h]; exact le_max_left _ _
    · exact le_trans (maxId_le_foldr t r h) (le_max_right _ _)

theorem id_ne_nextRideId (rides : List Ride) :
    ∀ r ∈ rides, (r.id == nextRideId rides) = false := by
  intro r hr
  have hlt : r.id < nextRideId rides :=
    Nat.lt_succ_of_le (maxId_le_foldr rides r hr)
  exact beq_eq_false_iff_ne.2 (Nat.ne_of_lt hlt)

theorem acceptRowCount_ne_zero (rid : Nat) (st : EngineState) (r0 : Ride)
    (hfind : getRide st.rides rid = some r0)
    (hreq : r0.status = RideStatus.REQUESTED) :
    acceptRowCount rid st.rides ≠ 0 := by
  have hfind' : st.rides.find? (fun r => r.id == rid) = some r0 := hfind
  have hmem : r0 ∈ st.rides := List.mem_of_find?_eq_some hfind'
  have hid : (r0.id == rid) = true := by
    simpa using List.find?_some hfind'
  have hpred : acceptPred rid r0 = true := by
    simp [acceptPred, hid, hreq]
  have hf : r0 ∈ st.rides.filter (acceptPred rid) :=
    List.mem_filter.2 ⟨hmem, hpred⟩
  have hne := List.ne_nil_of_mem hf
  intro hzero
  unfold acceptRowCount at hzero
  exact hne (List.length_eq_zero.1 hzero)

theorem acceptRide_success (d rid rsock : Nat) (st : EngineState)
    (h : acceptRowCount rid st.rides ≠ 0) :
    acceptRide d rid rsock st =
      ({ st with rides := acceptUpdate d rid st.rides },
       [Event.ride_accepted rsock rid d,
        Event.ride_booking_success d rid]) := by
  simp [acceptRide, h]

theorem acceptRide_fail (d rid rsock : Nat) (st : EngineState)
    (h : acceptRowCount rid st.rides = 0) :
    acceptRide d rid rsock st = (st, [Event.ride_booking_failed d]) := by
  simp [acceptRide, h]

theorem runAccepts_all_fail (rid rsock : Nat) :
    ∀ (st : EngineState) (ds : List Nat), acceptRowCount rid st.rides = 0 →
      runAccepts rid rsock st ds =
        (st, ds.map fun d => [Event.ride_booking_failed d])
  | _, [], _ => rfl
  | st, d :: ds, h => by
    simp [runAccepts, acceptRide_fail d rid rsock st h,
      runAccepts_all_fail rid rsock st ds h]

theorem cancelUpdate_idem (rid : Nat) (l : List Ride) :
    cancelUpdate rid (cancelUpdate rid l) = cancelUpdate rid l := by
  simp only [cancelUpdate, updateWhere]
  apply map_idem
  intro r
  by_cases h : (r.id == rid) = true
  · simp [h]
  · simp [h]

theorem completeUpdate_idem (rid pm : Nat) (l : List Ride) :
    completeUpdate rid pm (completeUpdate rid pm l) = completeUpdate rid pm l := by
  simp only [completeUpdate, updateWhere]
  apply map_idem
  intro r
  by_cases h : (r.id == rid) = true
  · simp [h, completeSet]
  · simp [h]

theorem completeUpdate_status_twice (rid pm pm' : Nat) (l : List Ride) :
    (completeUpdate rid pm' (completeUpdate rid pm l)).map Ride.status =
      (completeUpdate rid pm l).map Ride.status := by
  induction l with
  | nil => rfl
  | cons a t ih =>
    simp only [completeUpdate, updateWhere, List.map_cons] at ih ⊢
    by_cases h : (a.id == rid) = true
    · simp only [if_pos h]
      have h2 : ((completeSet pm a).id == rid) = true := h
      simp only [if_pos h2]
      rw [ih]
      simp [completeSet]
    · simp only [if_neg h]
      rw [ih]

/-- C1: the accept_ride handler performs one conditional update, moving a
ride to ACCEPTED with the caller's driver id only while the status is still
REQUESTED; when no row matches, the caller receives the explicit
ride_booking_failed rejection and the table is not mutated, so among any
sequence of accept calls on one REQUESTED ride exactly the first succeeds
and the final record is ACCEPTED with the winner's driver id. -/
theorem accept_exactly_one_winner (st : EngineState) (rid rsock d0 : Nat)
    (ds : List Nat) (r0 : Ride)
    (hfind : getRide st.rides rid = some r0)
    (hreq : r0.status = RideStatus.REQUESTED) :
    runAccepts rid rsock st (d0 :: ds) =
      ({ st with rides := acceptUpdate d0 rid st.rides },
       [Event.ride_accepted rsock rid d0, Event.ride_booking_success d0 rid]
         :: ds.map fun d => [Event.ride_booking_failed d]) ∧
    getRide (acceptUpdate d0 rid st.rides) rid =
      some { r0 with status := RideStatus.ACCEPTED, driver_id := some d0 } := by
  have hcnt := acceptRowCount_ne_zero rid st r0 hfind hreq
  have hsucc := acceptRide_success d0 rid rsock st hcnt
  have hzero : acceptRowCount rid (acceptUpdate d0 rid st.rides) = 0 :=
    acceptRowCount_after_update d0 rid st.rides
  constructor
  · have hrest := runAccepts_all_fail rid rsock
      { st with rides := acceptUpdate d0 rid st.rides } ds hzero
    simp [runAccepts, hsucc, hrest]
  · have hfind' : st.rides.find? (fun r => r.id == rid) = some r0 := hfind
    have hid : (r0.id == rid) = true := by
      simpa using List.find?_some hfind'
    have hp : acceptPred rid r0 = true := by simp [acceptPred, hid, hreq]
    have hres := getRide_updateWhere rid (acceptPred rid) (acceptSet d0)
      (fun q => rfl) st.rides r0 hfind
    simp only [acceptUpdate]
    rw [hres, if_pos hp]
    rfl

/-- Witness for C1: three drivers race for the one REQUESTED ride; driver 7
wins, drivers 8 and 9 receive ride_booking_failed. -/
theorem accept_exactly_one_winner_witness :
    runAccepts 1 5 stOne [7, 8, 9] =
      ({ stOne with rides := acceptUpdate 7 1 stOne.rides },
       [Event.ride_accepted 5 1 7, Event.ride_booking_success 7 1]
         :: [8, 9].map fun d => [Event.ride_booking_failed d]) ∧
    getRide (acceptUpdate 7 1 stOne.rides) 1 =
      some { rideReq with status := RideStatus.ACCEPTED, driver_id := some 7 } :=
  accept_exactly_one_winner stOne 1 5 7 [8, 9] rideReq (by decide) (by decide)

/-- C4: the timeout callback is conditional: while the ride is still
REQUESTED it sets TIMEOUT and notifies the rider; for a ride in any other
status (an already accepted ride in particular) it changes no ride row and
emits nothing. -/
theorem timeout_only_from_requested (st : EngineState) (sock rid : Nat)
    (r : Ride) (hfind : getRide st.rides rid = some r) :
    (r.status ≠ RideStatus.REQUESTED →
      (fireTimeout sock rid st).1.rides = st.rides ∧
      (fireTimeout sock rid st).2 = []) ∧
    (r.status = RideStatus.REQUESTED →
      getRide (fireTimeout sock rid st).1.rides rid =
        some { r with status := RideStatus.TIMEOUT } ∧
      (fireTimeout sock rid st).2 = [Event.ride_timeout sock]) := by
  constructor
  · intro hne
    constructor
    · simp [fireTimeout, hfind, hne]
    · simp [fireTimeout, hfind, hne]
  · intro heq
    have hfind' : st.rides.find? (fun q => q.id == rid) = some r := hfind
    have hid : (r.id == rid) = true := by
      simpa using List.find?_some hfind'
    have hres := getRide_updateWhere rid (fun q => q.id == rid)
      (fun q => { q with status := RideStatus.TIMEOUT })
      (fun q => rfl) st.rides r hfind
    constructor
    · simp only [fireTimeout, hfind, heq, if_true]
      rw [hres, if_pos hid]
    · simp [fireTimeout, hfind, heq]

/-- Witness for C4: firing the timer on an already accepted ride leaves the
table unchanged and emits nothing. -/
theorem timeout_only_from_requested_witness :
    (fireTimeout 9 1 stAcc).1.rides = stAcc.rides ∧
    (fireTimeout 9 1 stAcc).2 = [] :=
  (timeout_only_from_requested stAcc 9 1 rideBusy (by decide)).1 (by decide)

/-- C9: cancel and complete are unconditional overwrites and hence
idempotent on terminal states: a second cancel after a cancel reproduces the
same state and events, a second complete after a complete with the same
payment method reproduces the same state and events, and a second complete
with any payment method leaves every status unchanged. -/
theorem cancel_complete_idempotent (st : EngineState) (rid pm pm' : Nat) :
    cancelRide rid (cancelRide rid st).1 = cancelRide rid st ∧
    completeRide rid pm (completeRide rid pm st).1 = completeRide rid pm st ∧
    ((completeRide rid pm' (completeRide rid pm st).1).1.rides).map
        Ride.status =
      ((completeRide rid pm st).1.rides).map Ride.status := by
  refine ⟨?_, ?_, ?_⟩
  · by_cases h0 : rid = 0
    · simp [cancelRide, h0]
    · simp [cancelRide, h0, cancelUpdate_idem]
  · simp [completeRide, completeUpdate_idem]
  · simp [completeRide, completeUpdate_status_twice]

/-- C3 counterexample: accepting then cancelling the concrete ride leaves a
CANCELLED row whose assigned-driver reference is still non-null, so the
claimed non-null-iff-active invariant is false after the cancel operation. -/
theorem c3_counterexample :
    getRide (cancelRide 1 (acceptRide 7 1 5 stOne).1).1.rides 1 =
      some { rideReq with status := RideStatus.CANCELLED, driver_id := some 7 } ∧
    assignedIffActive { rideReq with status := RideStatus.CANCELLED, driver_id := some 7 } = false := by
  constructor
  · decide
  · decide

/-- C3 (amended): a successful accept establishes the invariant at the
accepted ride, setting driver_id together with ACCEPTED; but cancel_ride
leaves driver_id in place, so cancelling an accepted ride yields a CANCELLED
row retaining the driver reference, on which the invariant is false. -/
theorem accept_sets_driver_cancel_retains (st : EngineState)
    (rid rsock d : Nat) (r0 : Ride)
    (hfind : getRide st.rides rid = some r0)
    (hreq : r0.status = RideStatus.REQUESTED)
    (hrid : rid ≠ 0) :
    getRide (acceptRide d rid rsock st).1.rides rid =
      some { r0 with status := RideStatus.ACCEPTED, driver_id := some d } ∧
    assignedIffActive { r0 with status := RideStatus.ACCEPTED, driver_id := some d } = true ∧
    getRide (cancelRide rid (acceptRide d rid rsock st).1).1.rides rid =
      some { r0 with status := RideStatus.CANCELLED, driver_id := some d } ∧
    assignedIffActive { r0 with status := RideStatus.CANCELLED, driver_id := some d } = false := by
  have hcnt := acceptRowCount_ne_zero rid st r0 hfind hreq
  have hsucc := acceptRide_success d rid rsock st hcnt
  have hfind' : st.rides.find? (fun r => r.id == rid) = some r0 := hfind
  have hid : (r0.id == rid) = true := by
    simpa using List.find?_some hfind'
  have hp : acceptPred rid r0 = true := by simp [acceptPred, hid, hreq]
  have hres1 := getRide_updateWhere rid (acceptPred rid) (acceptSet d)
    (fun q => rfl) st.rides r0 hfind
  have hacc0 : getRide (acceptUpdate d rid st.rides) rid =
      some { r0 with status := RideStatus.ACCEPTED, driver_id := some d } := by
    simp only [acceptUpdate]
    rw [hres1, if_pos hp]
    rfl
  have hacc : getRide (acceptRide d rid rsock st).1.rides rid =
      some { r0 with status := RideStatus.ACCEPTED, driver_id := some d } := by
    rw [hsucc]
    exact hacc0
  have hres2 := getRide_updateWhere rid (fun r => r.id == rid)
    (fun r => { r with status := RideStatus.CANCELLED })
    (fun q => rfl) (acceptUpdate d rid st.rides) _ hacc0
  have hid1 : (({ r0 with status := RideStatus.ACCEPTED, driver_id := some d } : Ride).id == rid) = true := hid
  have hcanc : getRide (cancelRide rid (acceptRide d rid rsock st).1).1.rides rid =
      some { r0 with status := RideStatus.CANCELLED, driver_id := some d } := by
    have hc : (cancelRide rid (acceptRide d rid rsock st).1).1.rides =
        cancelUpdate rid (acceptUpdate d rid st.rides) := by
      rw [hsucc]
      simp [cancelRide, hrid]
    rw [hc]
    simp only [cancelUpdate]
    rw [hres2, if_pos hid1]
  exact ⟨hacc, rfl, hcanc, rfl⟩

/-- Witness for the amended C3 at the concrete one-ride table. -/
theorem accept_sets_driver_cancel_retains_witness :
    getRide (acceptRide 7 1 5 stOne).1.rides 1 =
      some { rideReq with status := RideStatus.ACCEPTED, driver_id := some 7 } ∧
    assignedIffActive { rideReq with status := RideStatus.ACCEPTED, driver_id := some 7 } = true ∧
    getRide (cancelRide 1 (acceptRide 7 1 5 stOne).1).1.rides 1 =
      some { rideReq with status := RideStatus.CANCELLED, driver_id := some 7 } ∧
    assignedIffActive { rideReq with status := RideStatus.CANCELLED, driver_id := some 7 } = false :=
  accept_sets_driver_cancel_retains stOne 1 5 7 rideReq (by decide) (by decide)
    (by decide)

/-- C5 counterexample: in the concrete state the accept succeeds, yet the
pending dispatch timer for the ride is still queued afterwards, so the
claimed cancel-on-accept behaviour of a ride-to-timer map is false. -/
theorem c5_counterexample :
    (acceptRide 7 1 5 stPend).2 =
      [Event.ride_accepted 5 1 7, Event.ride_booking_success 7 1] ∧
    (1, TIMEOUT_MS) ∈ (acceptRide 7 1 5 stPend).1.pendingTimers ∧
    ¬ AcceptCancelsPendingTimer := by
  refine ⟨by decide, by decide, fun h => ?_⟩
  exact absurd
    (show (1, TIMEOUT_MS) ∈ (acceptRide 7 1 5 stPend).1.pendingTimers by decide)
    (h stPend 7 1 5 (by decide) TIMEOUT_MS)

/-- C5 (amended): no timer handle is stored and neither accept_ride nor
cancel_ride touches the timer queue, so the ride's timer stays pending and
later fires; because the callback re-checks the status, the firing changes
no ride row and emits nothing for a ride that was accepted or cancelled. -/
theorem timer_fires_noop (st : EngineState) (d rid rsock sock : Nat) :
    (acceptRide d rid rsock st).1.pendingTimers = st.pendingTimers ∧
    (cancelRide rid st).1.pendingTimers = st.pendingTimers ∧
    (acceptRowCount rid st.rides ≠ 0 →
      (fireTimeout sock rid (acceptRide d rid rsock st).1).1.rides =
        (acceptRide d rid rsock st).1.rides ∧
      (fireTimeout sock rid (acceptRide d rid rsock st).1).2 = []) ∧
    (rid ≠ 0 →
      (fireTimeout sock rid (cancelRide rid st).1).1.rides =
        (cancelRide rid st).1.rides ∧
      (fireTimeout sock rid (cancelRide rid st).1).2 = []) := by
  refine ⟨?_, ?_, ?_, ?_⟩
  · by_cases h : acceptRowCount rid st.rides = 0
    · simp [acceptRide, h]
    · simp [acceptRide, h]
  · by_cases h0 : rid = 0
    · simp [cancelRide, h0]
    · simp [cancelRide, h0]
  · intro h
    have hsucc := acceptRide_success d rid rsock st h
    rw [hsucc]
    cases hg : getRide (acceptUpdate d rid st.rides) rid with
    | none => constructor <;> simp [fireTimeout, hg]
    | some r =>
      have hg' : (acceptUpdate d rid st.rides).find? (fun q => q.id == rid) =
          some r := hg
      have hmem : r ∈ acceptUpdate d rid st.rides :=
        List.mem_of_find?_eq_some hg'
      have hid : (r.id == rid) = true := by
        simpa using List.find?_some hg'
      have hne := acceptUpdate_not_requested d rid st.rides r hmem hid
      constructor <;> simp [fireTimeout, hg, hne]
  · intro h0
    cases hg : getRide (cancelUpdate rid st.rides) rid with
    | none => constructor <;> simp [cancelRide, h0, fireTimeout, hg]
    | some r =>
      have hg' : (cancelUpdate rid st.rides).find? (fun q => q.id == rid) =
          some r := hg
      have hmem : r ∈ cancelUpdate rid st.rides :=
        List.mem_of_find?_eq_some hg'
      have hid : (r.id == rid) = true := by
        simpa using List.find?_some hg'
      have hst := cancelUpdate_cancelled rid st.rides r hmem hid
      have hne : r.status ≠ RideStatus.REQUESTED := by simp [hst]
      constructor <;> simp [cancelRide, h0, fireTimeout, hg, hne]

/-- Witness for the amended C5: after the concrete accept and after the
concrete cancel the fired timer is a no-op. -/
theorem timer_fires_noop_witness :
    ((fireTimeout 9 1 (acceptRide 7 1 5 stPend).1).1.rides =
        (acceptRide 7 1 5 stPend).1.rides ∧
      (fireTimeout 9 1 (acceptRide 7 1 5 stPend).1).2 = []) ∧
    ((fireTimeout 9 1 (cancelRide 1 stPend).1).1.rides =
        (cancelRide 1 stPend).1.rides ∧
      (fireTimeout 9 1 (cancelRide 1 stPend).1).2 = []) :=
  ⟨(timer_fires_noop stPend 7 1 5 9).2.2.1 (by decide),
   (timer_fires_noop stPend 7 1 5 9).2.2.2 (by decide)⟩

/-- C7 counterexample: eleven free online drivers within the radius are all
returned, in table order with descending distances, so the claimed
ascending-by-distance ordering and the cap at limit 10 are both false. -/
theorem c7_counterexample :
    (nearbyDriversQuery gd0 (0, 0) 5000 drivers11 []).length = 11 ∧
    findCandidatesSpecCompliant gd0 (0, 0)
      (nearbyDriversQuery gd0 (0, 0) 5000 drivers11 []) = false := by
  constructor
  · decide
  · decide

/-- C7 (amended): the candidate query returns exactly the drivers that are
online, free (no busy ride row) and within the given radius of the pickup
point, in driver-table order, with no distance ordering and no result cap;
the query itself emits no notification. -/
theorem find_candidates_membership (gd : GeoDist) (pickup : Int × Int)
    (radius : Nat) (drivers : List Driver) (rides : List Ride) (d : Driver) :
    d ∈ nearbyDriversQuery gd pickup radius drivers rides ↔
      d ∈ drivers ∧ d.is_online = true ∧ driverBusy rides d.id = false ∧
        gd (d.lng, d.lat) pickup ≤ radius := by
  simp [nearbyDriversQuery, List.mem_filter, Bool.and_eq_true,
    Bool.not_eq_true', decide_eq_true_eq, and_assoc]

/-- C8: every driver_location heartbeat persists the presence update on the
driver row, and self-heals the Ledger: every busy ride assigned to the
reporting driver is force-cancelled, and afterwards no busy ride of that
driver remains. -/
theorem driver_location_self_heal (sock : Nat) (data : LocationData)
    (st : EngineState) :
    (∀ r ∈ st.rides, r.driver_id = some data.driverId →
      r.status.isBusy = true →
      { r with status := RideStatus.CANCELLED } ∈
        (driverLocation sock data st).rides) ∧
    (∀ r ∈ (driverLocation sock data st).rides,
      r.driver_id = some data.driverId → r.status.isBusy = false) ∧
    (∀ dr, getDriver st.drivers data.driverId = some dr →
      getDriver (driverLocation sock data st).drivers data.driverId =
        some (driverSet sock data dr)) := by
  refine ⟨?_, ?_, ?_⟩
  · intro r hr hdid hb
    have hp : healPred data.driverId r = true := by simp [healPred, hdid, hb]
    have hmm := mem_updateWhere_of_mem (healPred data.driverId)
      (fun q => { q with status := RideStatus.CANCELLED }) hr
    rw [if_pos hp] at hmm
    exact hmm
  · intro r' hr' hdid
    have hr'' : r' ∈ updateWhere (healPred data.driverId)
        (fun q => { q with status := RideStatus.CANCELLED }) st.rides := hr'
    simp only [updateWhere, List.mem_map] at hr''
    rcases hr'' with ⟨r, _, rfl⟩
    by_cases hp : healPred data.driverId r = true
    · rw [if_pos hp]
      rfl
    · rw [if_neg hp] at hdid ⊢
      cases hb : r.status.isBusy
      · rfl
      · exact absurd (by simp [healPred, hdid, hb]) hp
  · intro dr hdr
    have hdr' : st.drivers.find? (fun x => x.id == data.driverId) =
        some dr := hdr
    have hid : (dr.id == data.driverId) = true := by
      simpa using List.find?_some hdr'
    have hres := getDriver_updateWhere data.driverId
      (fun x => x.id == data.driverId) (driverSet sock data)
      (fun q => rfl) st.drivers dr hdr
    have hdrv : (driverLocation sock data st).drivers =
        updateWhere (fun x => x.id == data.driverId) (driverSet sock data)
          st.drivers := rfl
    rw [hdrv, hres, if_pos hid]

/-- Witness for C8: the stuck ride of driver 7 is cancelled by the
heartbeat, no busy ride of driver 7 remains, and the driver row is updated. -/
theorem driver_location_self_heal_witness :
    ({ rideBusy with status := RideStatus.CANCELLED } ∈
      (driverLocation 50 dataTok stStuck).rides) ∧
    (({ rideBusy with status := RideStatus.CANCELLED } : Ride).status.isBusy = false) ∧
    getDriver (driverLocation 50 dataTok stStuck).drivers dataTok.driverId =
      some (driverSet 50 dataTok driver7) :=
  ⟨(driver_location_self_heal 50 dataTok stStuck).1 rideBusy (by decide)
      (by decide) (by decide),
   (driver_location_self_heal 50 dataTok stStuck).2.1
      { rideBusy with status := RideStatus.CANCELLED }
      (by decide) (by decide),
   (driver_location_self_heal 50 dataTok stStuck).2.2 driver7 (by decide)⟩

/-- C10: a heartbeat whose payload carries no fcmToken leaves the stored
push token unchanged through COALESCE while still updating location,
heading, socket and the online flag. -/
theorem heartbeat_preserves_fcm (sock : Nat) (data : LocationData)
    (st : EngineState) (dr : Driver)
    (hfind : getDriver st.drivers data.driverId = some dr)
    (hnone : data.fcmToken = none) :
    getDriver (driverLocation sock data st).drivers data.driverId =
      some { dr with lng := data.lng, lat := data.lat, heading := data.heading, socket_id := some sock, is_online := true, fcm_token := dr.fcm_token } := by
  have hdr' : st.drivers.find? (fun x => x.id == data.driverId) =
      some dr := hfind
  have hid : (dr.id == data.driverId) = true := by
    simpa using List.find?_some hdr'
  have hres := getDriver_updateWhere data.driverId
    (fun x => x.id == data.driverId) (driverSet sock data)
    (fun q => rfl) st.drivers dr hfind
  have hdrv : (driverLocation sock data st).drivers =
      updateWhere (fun x => x.id == data.driverId) (driverSet sock data)
        st.drivers := rfl
  rw [hdrv, hres, if_pos hid]
  simp [driverSet, hnone, coalesce]

/-- Witness for C10: a tokenless heartbeat for the concrete driver leaves
the stored push token 55 in place while refreshing the presence fields. -/
theorem heartbeat_preserves_fcm_witness :
    getDriver (driverLocation 77 dataNoTok stTok).drivers dataNoTok.driverId =
      some { driverTok with lng := dataNoTok.lng, lat := dataNoTok.lat, heading := dataNoTok.heading, socket_id := some 77, is_online := true, fcm_token := driverTok.fcm_token } :=
  heartbeat_preserves_fcm 77 dataNoTok stTok driverTok (by decide) (by decide)

/-- C2 counterexample: a concrete request with no reachable driver performs
exactly one candidate query at the fixed 5000 m radius; there is no second
phase and no expanding radius, so the claimed cascading radius search is
false on this run. -/
theorem c2_counterexample :
    cascadingDispatch (dispatchRun gd0 5 dataReq stFar) = false ∧
    (dispatchRun gd0 5 dataReq stFar).queryRadii = [DISPATCH_RADIUS] := by
  constructor
  · decide
  · decide

/-- C2 (amended): request_ride performs a single candidate query at the
fixed radius 5000 m and schedules a single 120000 ms timeout; when no online
driver is within that radius the run sends zero driver notifications and the
ride reaches TIMEOUT after exactly one timer period, with one timeout notice
to the rider. -/
theorem dispatch_single_phase_timeout (gd : GeoDist) (sock : Nat)
    (data : RequestData) (st : EngineState)
    (h : ∀ d ∈ st.drivers, d.is_online = true →
      ¬ gd (d.lng, d.lat) (data.pickupLng, data.pickupLat) ≤ DISPATCH_RADIUS) :
    (dispatchRun gd sock data st).driverNotices = [] ∧
    (dispatchRun gd sock data st).queryRadii = [DISPATCH_RADIUS] ∧
    (dispatchRun gd sock data st).timerDelays = [TIMEOUT_MS] ∧
    (dispatchRun gd sock data st).riderNotices = [Event.ride_timeout sock] ∧
    getRide (dispatchRun gd sock data st).finalState.rides
        (nextRideId st.rides) =
      some { newRideOf sock data st with status := RideStatus.TIMEOUT } := by
  have hnil : nearbyDriversQuery gd (data.pickupLng, data.pickupLat)
      DISPATCH_RADIUS st.drivers (st.rides ++ [newRideOf sock data st]) = [] := by
    simp only [nearbyDriversQuery]
    apply filter_nil_of_none
    intro d hd
    cases ho : d.is_online with
    | false => simp [ho]
    | true =>
      have hno := h d hd ho
      simp [ho, hno]
  have hout : requestRide gd sock data st =
      { state := { st with
          rides := st.rides ++ [newRideOf sock data st]
          pendingTimers := st.pendingTimers ++
            [(nextRideId st.rides, TIMEOUT_MS)] }
        events := []
        queryRadii := [DISPATCH_RADIUS]
        rideId := nextRideId st.rides } := by
    simp [requestRide, hnil]
  have hfresh := id_ne_nextRideId st.rides
  have hx : ((newRideOf sock data st).id == nextRideId st.rides) = true := by
    simp [newRideOf]
  have hfind : getRide (st.rides ++ [newRideOf sock data st])
      (nextRideId st.rides) = some (newRideOf sock data st) :=
    find?_append_singleton (fun r : Ride => r.id == nextRideId st.rides)
      (newRideOf sock data st) st.rides hfresh hx
  have hstat : (newRideOf sock data st).status = RideStatus.REQUESTED := rfl
  have hres := getRide_updateWhere (nextRideId st.rides)
    (fun q => q.id == nextRideId st.rides)
    (fun q => { q with status := RideStatus.TIMEOUT })
    (fun q => rfl) (st.rides ++ [newRideOf sock data st]) _ hfind
  refine ⟨?_, ?_, ?_, ?_, ?_⟩
  · simp [dispatchRun, hout]
  · simp [dispatchRun, hout]
  · simp [dispatchRun, hout, drop_length_append]
  · simp [dispatchRun, hout, fireTimeout, hfind, hstat]
  · simp [dispatchRun, hout, fireTimeout, hfind, hstat]
    rw [hres]
    simp [hx]

/-- Witness for the amended C2: one online driver far outside the radius,
the request times out after the single 120000 ms timer with no driver
notification. -/
theorem dispatch_single_phase_timeout_witness :
    (dispatchRun gd0 5 dataReq stFar).driverNotices = [] ∧
    (dispatchRun gd0 5 dataReq stFar).queryRadii = [DISPATCH_RADIUS] ∧
    (dispatchRun gd0 5 dataReq stFar).timerDelays = [TIMEOUT_MS] ∧
    (dispatchRun gd0 5 dataReq stFar).riderNotices = [Event.ride_timeout 5] ∧
    getRide (dispatchRun gd0 5 dataReq stFar).finalState.rides
        (nextRideId stFar.rides) =
      some { newRideOf 5 dataReq stFar with status := RideStatus.TIMEOUT } :=
  dispatch_single_phase_timeout gd0 5 dataReq stFar (by decide)

/-- C6 counterexample: the startup cleanup is spawned without await, so the
order serving a request before the cleanup completes is admissible; in it
the stuck driver is still excluded from the candidate query, while the order
with the cleanup first notifies that driver, so the claimed synchronous
reconciliation before serving is false. -/
theorem c6_counterexample :
    (¬ StartupReconcilerSynchronous) ∧
    validStartExec execLate = true ∧
    reconciledBeforeRequests execLate = false ∧
    (execStart gd0 execLate stStuck).2.countP Event.isDriverRequest = 0 ∧
    (execStart gd0 execEarly stStuck).2.countP Event.isDriverRequest = 1 := by
  refine ⟨fun hsync => ?_, by decide, by decide, by decide, by decide⟩
  exact absurd (hsync execLate (by decide)) (by decide)

/-- C6 (amended): the startup cleanup query itself cancels exactly the busy
rides: every busy ride reappears CANCELLED, every other ride is untouched,
and no busy ride remains afterwards; but the call is not awaited, so its
completion is not ordered before the serving of new requests. -/
theorem startup_reconciler_cancels_busy (rides : List Ride) :
    (∀ r ∈ rides, r.status.isBusy = true →
      { r with status := RideStatus.CANCELLED } ∈ clearStuckRides rides) ∧
    (∀ r ∈ rides, r.status.isBusy = false → r ∈ clearStuckRides rides) ∧
    (∀ r ∈ clearStuckRides rides, r.status.isBusy = false) := by
  refine ⟨?_, ?_, ?_⟩
  · intro r hr hb
    have hmm := mem_updateWhere_of_mem (fun q => q.status.isBusy)
      (fun q => { q with status := RideStatus.CANCELLED }) hr
    rw [if_pos hb] at hmm
    exact hmm
  · intro r hr hb
    have hb' : ¬ (r.status.isBusy = true) := by simp [hb]
    have hmm := mem_updateWhere_of_mem (fun q => q.status.isBusy)
      (fun q => { q with status := RideStatus.CANCELLED }) hr
    rw [if_neg hb'] at hmm
    exact hmm
  · intro r hr
    have hr' : r ∈ updateWhere (fun q => q.status.isBusy)
        (fun q => { q with status := RideStatus.CANCELLED }) rides := hr
    simp only [updateWhere, List.mem_map] at hr'
    rcases hr' with ⟨q, _, rfl⟩
    by_cases hp : q.status.isBusy = true
    · rw [if_pos hp]
      rfl
    · rw [if_neg hp]
      simpa using hp

/-- Witness for the amended C6 on concrete one-ride tables. -/
theorem startup_reconciler_cancels_busy_witness :
    ({ rideBusy with status := RideStatus.CANCELLED } ∈
      clearStuckRides [rideBusy]) ∧
    (rideReq ∈ clearStuckRides [rideReq]) ∧
    (({ rideBusy with status := RideStatus.CANCELLED } : Ride).status.isBusy = false) :=
  ⟨(startup_reconciler_cancels_busy [rideBusy]).1 rideBusy (by decide)
      (by decide),
   (startup_reconciler_cancels_busy [rideReq]).2.1 rideReq (by decide)
      (by decide),
   (startup_reconciler_cancels_busy [rideBusy]).2.2
      { rideBusy with status := RideStatus.CANCELLED } (by decide)⟩

end AyeAuto
